import Mathlib

/-!
Verification of the CSV-to-table parser of HeatMapMaker (`heatmapmaker.py`,
class `CSV`).  The Python class is shallowly embedded: each method becomes a
Lean function over an explicit `CSV` record, Python exceptions become the
`Except PyErr` monad, and Python floats are represented exactly as rationals
(the inputs of interest are decimal literals, which `float` maps to values we
model without rounding).
-/

/-- The error kinds surfaced by the parser.  `malformedGridError` is the
spec's name for the `AssertionError` raised by the two `assert
self.all_are_the_same_length(...)` statements in `CSV.__init__`;
`indexError` models Python's `IndexError` from out-of-range list indexing;
`numberFormatError` is the spec's name for the `ValueError` raised by
`float` on an unparsable cell. -/
inductive PyErr : Type
  | malformedGridError
  | indexError
  | numberFormatError
deriving DecidableEq, Repr

/-- Python list indexing `l[i]` for a non-negative index: the value when in
range, an `IndexError` otherwise. -/
def listIndex {α : Type} (l : List α) (i : Nat) : Except PyErr α :=
  match l[i]? with
  | some v => Except.ok v
  | none => Except.error PyErr.indexError

/-- The loop body of `CSV.all_are_the_same_length`: `length` starts as
`None`, is set from the first item, and each item's length is compared
against it, returning `False` early on a mismatch. -/
def same_length_loop {α : Type} : Option Nat → List (List α) → Bool
  | _, [] => true
  | len?, item :: rest =>
    let l := match len? with
      | none => item.length
      | some n => n
    if item.length = l then same_length_loop (some l) rest else false

/-- `CSV.all_are_the_same_length`: `True` iff all items of the iterable have
the same length. -/
def all_are_the_same_length {α : Type} (iterable : List (List α)) : Bool :=
  same_length_loop none iterable

/-- `val.replace(",", ".")`: both pattern and replacement are single
characters, so Python's replace-all is a character-wise map. -/
def pyReplace (val : String) : String :=
  ⟨val.data.map (fun ch => if ch = ',' then '.' else ch)⟩

/-- Splitting a character list at every occurrence of a separator character;
the semantics of Python's `str.split(sep)` (and of `String.splitOn`) for a
one-character separator: `n` separators yield `n + 1` (possibly empty)
pieces. -/
def splitOnChar (sep : Char) : List Char → List (List Char)
  | [] => [[]]
  | x :: xs =>
    let r := splitOnChar sep xs
    if x = sep then [] :: r
    else
      match r with
      | [] => [[x]]
      | piece :: rest => (x :: piece) :: rest

/-- ASCII decimal digit test. -/
def isDigitChar (c : Char) : Bool := 48 ≤ c.toNat && c.toNat ≤ 57

/-- Value of a digit string read left to right. -/
def digitsToNat (cs : List Char) : Nat :=
  cs.foldl (fun a c => 10 * a + (c.toNat - 48)) 0

/-- Unsigned mantissa of a float literal: digits with at most one dot and at
least one digit overall (`"1"`, `"1.5"`, `"1."`, `".5"`; not `"."`, `""`, or
anything with two dots). -/
def parseUnsignedMantissa (cs : List Char) : Option ℚ :=
  match splitOnChar '.' cs with
  | [ip] =>
    if !ip.isEmpty && ip.all isDigitChar then some ((digitsToNat ip : ℚ))
    else none
  | [ip, fp] =>
    if !(ip.isEmpty && fp.isEmpty) && ip.all isDigitChar && fp.all isDigitChar then
      some ((digitsToNat (ip ++ fp) : ℚ) / (10 : ℚ) ^ fp.length)
    else none
  | _ => none

/-- Optional leading sign in front of a sub-parser. -/
def parseSignedWith (p : List Char → Option ℚ) : List Char → Option ℚ
  | '-' :: rest => (p rest).map (fun q => -q)
  | '+' :: rest => p rest
  | cs => p cs

/-- Exponent part of a float literal: an optionally signed digit string. -/
def parseExponentChars (cs : List Char) : Option ℤ :=
  match cs with
  | '-' :: rest =>
    if !rest.isEmpty && rest.all isDigitChar then some (-(digitsToNat rest : ℤ))
    else none
  | '+' :: rest =>
    if !rest.isEmpty && rest.all isDigitChar then some ((digitsToNat rest : ℤ))
    else none
  | other =>
    if !other.isEmpty && other.all isDigitChar then some ((digitsToNat other : ℤ))
    else none

/-- `10 ^ e` for an integer exponent, as a rational. -/
def pow10 : ℤ → ℚ
  | Int.ofNat n => (10 : ℚ) ^ n
  | Int.negSucc n => 1 / (10 : ℚ) ^ (n + 1)

/-- Models the Python builtin `float` on decimal literals: an optional sign,
integer and fraction digits around an optional dot, and an optional `e`/`E`
exponent.  `none` models the `ValueError` Python raises on anything else.
Values are represented exactly as rationals; special spellings (`inf`,
`nan`, digit underscores, surrounding whitespace) are outside the model. -/
def pyFloat (s : String) : Option ℚ :=
  match splitOnChar 'e' (s.data.map (fun ch => if ch = 'E' then 'e' else ch)) with
  | [m] => parseSignedWith parseUnsignedMantissa m
  | [m, ex] =>
    match parseSignedWith parseUnsignedMantissa m, parseExponentChars ex with
    | some mv, some ev => some (mv * pow10 ev)
    | _, _ => none
  | _ => none

/-- The state of a `CSV` instance after `__init__`: the attributes
`self.rows`, `self.length_of_rows`, `self.cols`, `self.length_of_cols`,
`self._row_titles`, `self._col_titles`. -/
structure CSV : Type where
  rows : List (List String)
  length_of_rows : Nat
  cols : List (List String)
  length_of_cols : Nat
  row_titles : Bool
  col_titles : Bool
deriving DecidableEq, Repr

/-- The column-derivation loop of `CSV.__init__`:
`for idx in range(self.length_of_rows): self.cols.append([row[idx] for row in self.rows])`. -/
def colsDerivation (rows : List (List String)) (length_of_rows : Nat) :
    Except PyErr (List (List String)) :=
  (List.range length_of_rows).mapM (fun idx => rows.mapM (fun row => listIndex row idx))

/-- The whole column-oriented derivation of `CSV.__init__`, reading
`self.rows[0]` for the width first; used to state the column-oriented half
of the rectangularity check. -/
def derived_cols (rows : List (List String)) : Except PyErr (List (List String)) := do
  let firstRow ← listIndex rows 0
  colsDerivation rows firstRow.length

/-- `CSV.__init__` after the file has been read and split into `rows` (each
line contributing `line.strip().split(sep)`): assert the rows are all the
same length, read `len(self.rows[0])`, derive the columns, assert they are
all the same length, read `len(self.cols[0])`, and store the title flags.
A failed `assert` is the spec's `MalformedGridError`. -/
def CSV.init (rows : List (List String)) (has_row_titles has_col_titles : Bool) :
    Except PyErr CSV :=
  if all_are_the_same_length rows then do
    let firstRow ← listIndex rows 0
    let cols ← colsDerivation rows firstRow.length
    if all_are_the_same_length cols then do
      let firstCol ← listIndex cols 0
      Except.ok ⟨rows, firstRow.length, cols, firstCol.length, has_row_titles, has_col_titles⟩
    else Except.error PyErr.malformedGridError
  else Except.error PyErr.malformedGridError

/-- The read-and-split loop of `CSV.__init__`: each line of the file
contributes `line.strip().split(sep=self._sep)` to `self.rows`. -/
def CSV.initFromLines (lines : List String) (seperator : String)
    (has_row_titles has_col_titles : Bool) : Except PyErr CSV :=
  CSV.init (lines.map (fun line => line.trim.splitOn seperator)) has_row_titles has_col_titles

/-- The elementwise operation of `CSV.parse_data`:
`float(val.replace(",", "."))`, with `ValueError` surfaced as the spec's
`NumberFormatError`. -/
def cellParse (val : String) : Except PyErr ℚ :=
  match pyFloat (pyReplace val) with
  | some q => Except.ok q
  | none => Except.error PyErr.numberFormatError

/-- `CSV.parse_data`: parse every inner element of a nested list into a
float, after `val.replace(",", ".")`. -/
def CSV.parse_data (list_of_list_with_numerical_data_as_strings : List (List String)) :
    Except PyErr (List (List ℚ)) :=
  list_of_list_with_numerical_data_as_strings.mapM (fun nested_list =>
    nested_list.mapM cellParse)

/-- `CSV.get_row_titles`. -/
def CSV.get_row_titles (c : CSV) : Except PyErr (Option (List String)) :=
  if c.row_titles then
    if c.col_titles then
      ((c.rows.enum.filterMap (fun p => if p.1 = 0 then none else some p.2)).mapM
        (fun row => listIndex row 0)).map Option.some
    else
      (c.rows.mapM (fun row => listIndex row 0)).map Option.some
  else Except.ok none

/-- `CSV.get_col_titles`; in the row-titles-free branch the comprehension
guard `if col` keeps only non-empty (truthy) columns. -/
def CSV.get_col_titles (c : CSV) : Except PyErr (Option (List String)) :=
  if c.col_titles then
    if c.row_titles then
      ((c.cols.enum.filterMap (fun p => if p.1 = 0 then none else some p.2)).mapM
        (fun col => listIndex col 0)).map Option.some
    else
      ((c.cols.filter (fun col => !col.isEmpty)).mapM
        (fun col => listIndex col 0)).map Option.some
  else Except.ok none

/-- `CSV.get_data_per_row_without_titles`: the `if/elif/elif/else` chain on
`(self._row_titles, self._col_titles)`; skipping `i == 0` in a loop over
`enumerate(self.rows)` and Python's total slice `row[1:]` are rendered with
`List.enum`/`List.drop`. -/
def CSV.get_data_per_row_without_titles (c : CSV) : List (List String) :=
  if c.row_titles && c.col_titles then
    c.rows.enum.filterMap (fun p => if p.1 = 0 then none else some (p.2.drop 1))
  else if c.col_titles then
    c.rows.enum.filterMap (fun p => if p.1 = 0 then none else some p.2)
  else if c.row_titles then
    c.rows.map (fun row => row.drop 1)
  else
    c.rows

/-- `CSV.get_data_per_col_without_titles`: note the source checks
`elif self._row_titles` before `elif self._col_titles` here, mirroring the
row version with the roles of the two flags exchanged. -/
def CSV.get_data_per_col_without_titles (c : CSV) : List (List String) :=
  if c.row_titles && c.col_titles then
    c.cols.enum.filterMap (fun p => if p.1 = 0 then none else some (p.2.drop 1))
  else if c.row_titles then
    c.cols.enum.filterMap (fun p => if p.1 = 0 then none else some p.2)
  else if c.col_titles then
    c.cols.map (fun col => col.drop 1)
  else
    c.cols

/-- `CSV.to_df`: the data handed to `pandas.DataFrame` — row titles, column
titles, and the numeric matrix parsed from the row-major data. -/
def CSV.to_df (c : CSV) :
    Except PyErr (Option (List String) × Option (List String) × List (List ℚ)) := do
  let row_ts ← c.get_row_titles
  let col_ts ← c.get_col_titles
  let data := c.get_data_per_row_without_titles
  let parsed ← CSV.parse_data data
  Except.ok (row_ts, col_ts, parsed)

/-- State-passing form of a `csv.get_row_titles()` call: the method body
only reads `self.rows` and the flags and assigns no attribute, so the
post-state is the receiver unchanged. -/
def CSV.get_row_titles_call (c : CSV) : Except PyErr (Option (List String)) × CSV :=
  (c.get_row_titles, c)

/-- State-passing form of a `csv.get_col_titles()` call (no attribute is
assigned by the body). -/
def CSV.get_col_titles_call (c : CSV) : Except PyErr (Option (List String)) × CSV :=
  (c.get_col_titles, c)

/-- State-passing form of a `csv.get_data_per_row_without_titles()` call
(the body only builds the local `relevant_rows`). -/
def CSV.get_data_per_row_call (c : CSV) : List (List String) × CSV :=
  (c.get_data_per_row_without_titles, c)

/-- State-passing form of a `csv.get_data_per_col_without_titles()` call
(the body only builds the local `relevant_cols`). -/
def CSV.get_data_per_col_call (c : CSV) : List (List String) × CSV :=
  (c.get_data_per_col_without_titles, c)

/-- State-passing form of a `csv.parse_data(data)` call (the body reads no
attribute at all). -/
def CSV.parse_data_call (c : CSV) (data : List (List String)) :
    Except PyErr (List (List ℚ)) × CSV :=
  (CSV.parse_data data, c)

/-- State-passing form of a `csv.to_df()` call (the body only calls the
other read-only methods). -/
def CSV.to_df_call (c : CSV) :
    Except PyErr (Option (List String) × Option (List String) × List (List ℚ)) × CSV :=
  (c.to_df, c)

/-- The transpose of a rectangular grid, as the spec uses the word: entry
`i` of the transpose's row `j` is entry `j` of the grid's row `i`.  The
width is read off the first row; the `getD` default is never reached on a
rectangular grid. -/
def transposeG (g : List (List String)) : List (List String) :=
  match g with
  | [] => []
  | r0 :: rest =>
    (List.range r0.length).map (fun i => (r0 :: rest).map (fun row => row.getD i ""))

/-- The length of a titles result, taking the empty sequence when the
titles are absent: the spec's `len(getRowTitles() or [])`. -/
def titles_length (r : Except PyErr (Option (List String))) : Nat :=
  match r with
  | Except.ok (some ts) => ts.length
  | _ => 0

/-- The columns of a grid, read off by index: column `idx` collects entry
`idx` of every row.  For rows of length at least `w` the `getD` default is
never reached; this is the value `CSV.__init__` stores in `self.cols`. -/
def grid_cols (rows : List (List String)) (w : Nat) : List (List String) :=
  (List.range w).map (fun idx => rows.map (fun row => row.getD idx ""))

deriving instance DecidableEq for Except

/-! ### Library of small lemmas about the embedded operations -/

theorem listIndex_cons_zero {α : Type} (a : α) (l : List α) :
    listIndex (a :: l) 0 = Except.ok a := by
  simp [listIndex]

theorem listIndex_nil {α : Type} (i : Nat) :
    listIndex ([] : List α) i = Except.error PyErr.indexError := rfl

theorem listIndex_ok_of_lt {α : Type} [Inhabited α] {l : List α} {i : Nat} (h : i < l.length) :
    listIndex l i = Except.ok (l.getD i default) := by
  unfold listIndex
  rw [List.getElem?_eq_getElem h]
  rw [List.getD_eq_getElem?_getD, List.getElem?_eq_getElem h]
  rfl

theorem listIndex_zero_of_ne_nil {l : List String} (h : l ≠ []) :
    listIndex l 0 = Except.ok l.headI := by
  cases l with
  | nil => exact absurd rfl h
  | cons a t => simp [listIndex]

theorem same_length_loop_some {α : Type} (n : Nat) (l : List (List α)) :
    same_length_loop (some n) l = l.all (fun item => item.length == n) := by
  induction l with
  | nil => rfl
  | cons x xs ih =>
    simp only [same_length_loop, List.all_cons, ih]
    by_cases h : x.length = n
    · simp [h]
    · simp [h]

theorem all_same_nil {α : Type} : all_are_the_same_length ([] : List (List α)) = true := rfl

theorem all_same_cons {α : Type} (x : List α) (xs : List (List α)) :
    all_are_the_same_length (x :: xs) = xs.all (fun item => item.length == x.length) := by
  simp only [all_are_the_same_length, same_length_loop, if_pos rfl]
  exact same_length_loop_some x.length xs

theorem all_same_cons_iff {α : Type} (x : List α) (xs : List (List α)) :
    all_are_the_same_length (x :: xs) = true ↔ ∀ r ∈ xs, r.length = x.length := by
  rw [all_same_cons, List.all_eq_true]
  simp

theorem all_same_of_forall {α : Type} (l : List (List α)) (k : Nat)
    (h : ∀ c ∈ l, c.length = k) : all_are_the_same_length l = true := by
  cases l with
  | nil => rfl
  | cons c0 rest =>
    rw [all_same_cons_iff]
    intro r hr
    rw [h r (List.mem_cons_of_mem c0 hr), h c0 (List.mem_cons_self c0 rest)]

theorem all_same_false_iff {α : Type} (l : List (List α)) :
    all_are_the_same_length l = false ↔ ∃ r ∈ l, r.length ≠ l.headI.length := by
  cases l with
  | nil => simp [all_same_nil]
  | cons x xs =>
    rw [← Bool.not_eq_true, all_same_cons_iff]
    simp only [List.headI_cons]
    constructor
    · intro h
      push_neg at h
      obtain ⟨r, hr, hne⟩ := h
      exact ⟨r, List.mem_cons_of_mem x hr, hne⟩
    · intro ⟨r, hr, hne⟩
      intro hall
      rcases List.mem_cons.mp hr with heq | hmem
      · exact hne (by rw [heq])
      · exact hne (hall r hmem)

theorem mapM_ok_of_forall {α β : Type} (l : List α) (f : α → Except PyErr β) (g : α → β)
    (h : ∀ a ∈ l, f a = Except.ok (g a)) : l.mapM f = Except.ok (l.map g) := by
  induction l with
  | nil => rfl
  | cons a t ih =>
    rw [List.mapM_cons, h a (List.mem_cons_self a t),
      ih (fun x hx => h x (List.mem_cons_of_mem a hx))]
    rfl

theorem mapM_isOk {α β : Type} (l : List α) (f : α → Except PyErr β)
    (h : ∀ a ∈ l, ∃ b, f a = Except.ok b) : ∃ out, l.mapM f = Except.ok out := by
  induction l with
  | nil => exact ⟨[], rfl⟩
  | cons a t ih =>
    obtain ⟨b, hb⟩ := h a (List.mem_cons_self a t)
    obtain ⟨out, hout⟩ := ih (fun x hx => h x (List.mem_cons_of_mem a hx))
    refine ⟨b :: out, ?_⟩
    rw [List.mapM_cons, hb, hout]
    rfl

theorem mapM_error {α β : Type} (l : List α) (f : α → Except PyErr β) (e : PyErr)
    (htotal : ∀ a ∈ l, f a = Except.error e ∨ ∃ b, f a = Except.ok b)
    (hex : ∃ a ∈ l, f a = Except.error e) : l.mapM f = Except.error e := by
  induction l with
  | nil => simp at hex
  | cons a t ih =>
    rcases htotal a (List.mem_cons_self a t) with ha | ⟨b, hb⟩
    · rw [List.mapM_cons, ha]
      rfl
    · rw [List.mapM_cons, hb]
      obtain ⟨x, hx, hxe⟩ := hex
      rcases List.mem_cons.mp hx with heq | hmem
      · subst heq
        rw [hb] at hxe
        simp at hxe
      · rw [ih (fun y hy => htotal y (List.mem_cons_of_mem a hy)) ⟨x, hmem, hxe⟩]
        rfl

theorem mapM_ok_inv {α β : Type} {l : List α} {f : α → Except PyErr β} {out : List β}
    (h : l.mapM f = Except.ok out) :
    out.length = l.length ∧ ∀ b ∈ out, ∃ a ∈ l, f a = Except.ok b := by
  induction l generalizing out with
  | nil =>
    simp only [List.mapM_nil] at h
    cases h
    simp
  | cons a t ih =>
    rw [List.mapM_cons] at h
    cases hfa : f a with
    | error e =>
      rw [hfa] at h
      change Except.error e = Except.ok out at h
      cases h
    | ok b =>
      rw [hfa] at h
      cases hmt : t.mapM f with
      | error e =>
        rw [hmt] at h
        change Except.error e = Except.ok out at h
        cases h
      | ok outt =>
        rw [hmt] at h
        change Except.ok (b :: outt) = Except.ok out at h
        injection h with h2
        subst h2
        obtain ⟨hlen, hmem⟩ := ih hmt
        constructor
        · simp [hlen]
        · intro x hx
          rcases List.mem_cons.mp hx with heq | hmemb
          · exact ⟨a, List.mem_cons_self a t, by rw [heq]; exact hfa⟩
          · obtain ⟨y, hy, hfy⟩ := hmem x hmemb
            exact ⟨y, List.mem_cons_of_mem a hy, hfy⟩

theorem enumFrom_filterMap_skip0 {β : Type} (f : List String → β) :
    ∀ (n : Nat) (xs : List (List String)),
    (List.enumFrom (n + 1) xs).filterMap
      (fun p => if p.1 = 0 then none else some (f p.2)) = xs.map f := by
  intro n xs
  induction xs generalizing n with
  | nil => rfl
  | cons x t ih =>
    simp only [List.enumFrom, List.filterMap_cons]
    rw [if_neg (Nat.succ_ne_zero n)]
    rw [ih (n + 1)]
    rfl

theorem enum_filterMap_skip0 {β : Type} (f : List String → β) (xs : List (List String)) :
    xs.enum.filterMap (fun p => if p.1 = 0 then none else some (f p.2)) =
      (xs.drop 1).map f := by
  cases xs with
  | nil => rfl
  | cons x t =>
    show (List.enumFrom 0 (x :: t)).filterMap _ = _
    simp only [List.enumFrom, List.filterMap_cons, if_pos rfl]
    exact enumFrom_filterMap_skip0 f 0 t

theorem mapM_listIndex_getD (l : List (List String)) (idx : Nat)
    (h : ∀ r ∈ l, idx < r.length) :
    l.mapM (fun row => listIndex row idx) =
      Except.ok (l.map (fun row => row.getD idx "")) := by
  refine mapM_ok_of_forall l _ _ (fun r hr => ?_)
  exact listIndex_ok_of_lt (h r hr)

theorem mapM_listIndex_zero (l : List (List String)) (h : ∀ r ∈ l, r ≠ []) :
    l.mapM (fun row => listIndex row 0) =
      Except.ok (l.map (fun row => row.headI)) := by
  refine mapM_ok_of_forall l _ _ (fun r hr => ?_)
  exact listIndex_zero_of_ne_nil (h r hr)

theorem colsDerivation_eq (rows : List (List String)) (w : Nat)
    (h : ∀ r ∈ rows, w ≤ r.length) :
    colsDerivation rows w = Except.ok (grid_cols rows w) := by
  unfold colsDerivation grid_cols
  refine mapM_ok_of_forall _ _ _ (fun idx hidx => ?_)
  refine mapM_listIndex_getD rows idx (fun r hr => ?_)
  exact Nat.lt_of_lt_of_le (List.mem_range.mp hidx) (h r hr)

theorem grid_cols_length_mem (rows : List (List String)) (w : Nat) :
    ∀ c ∈ grid_cols rows w, c.length = rows.length := by
  intro c hc
  obtain ⟨idx, _, rfl⟩ := List.mem_map.mp hc
  exact List.length_map rows _

theorem except_bind_ok {α β : Type} (a : α) (f : α → Except PyErr β) :
    (Except.ok a : Except PyErr α) >>= f = f a := rfl

theorem except_bind_error {α β : Type} (e : PyErr) (f : α → Except PyErr β) :
    (Except.error e : Except PyErr α) >>= f = Except.error e := rfl

/-- `grid_cols` of a positive width, with the head column exposed. -/
theorem grid_cols_succ (rows : List (List String)) (v : Nat) :
    grid_cols rows (v + 1) =
      (rows.map (fun row => row.getD 0 "")) ::
        ((List.range v).map (fun i => rows.map (fun row => row.getD (i + 1) ""))) := by
  unfold grid_cols
  rw [List.range_succ_eq_map]
  simp [List.map_map, Function.comp]

/-- Unfolding `CSV.init` on a non-empty grid that passes the row check. -/
theorem init_cons (r0 : List String) (rest : List (List String)) (hr hc : Bool)
    (hall : all_are_the_same_length (r0 :: rest) = true) :
    CSV.init (r0 :: rest) hr hc =
      (colsDerivation (r0 :: rest) r0.length >>= fun cols =>
        if all_are_the_same_length cols then
          listIndex cols 0 >>= fun firstCol =>
            Except.ok ⟨r0 :: rest, r0.length, cols, firstCol.length, hr, hc⟩
        else Except.error PyErr.malformedGridError) := by
  unfold CSV.init
  rw [if_pos hall, listIndex_cons_zero, except_bind_ok]

/-- Inversion of a successful construction: the grid is non-empty, its first
row is non-empty, it is rectangular, and the stored state is exactly the
grid, its width, its columns, its height, and the two flags. -/
theorem init_ok_inv {rows : List (List String)} {hr hc : Bool} {s : CSV}
    (h : CSV.init rows hr hc = Except.ok s) :
    ∃ r0 rest, rows = r0 :: rest ∧ (∀ r ∈ rows, r.length = r0.length) ∧ 0 < r0.length ∧
      s = ⟨rows, r0.length, grid_cols rows r0.length, rows.length, hr, hc⟩ := by
  by_cases hall : all_are_the_same_length rows
  · cases rows with
    | nil =>
      unfold CSV.init at h
      rw [if_pos hall, listIndex_nil, except_bind_error] at h
      cases h
    | cons r0 rest =>
      have hrect : ∀ r ∈ r0 :: rest, r.length = r0.length := by
        intro r hrm
        rcases List.mem_cons.mp hrm with heq | hmem
        · rw [heq]
        · exact (all_same_cons_iff r0 rest).mp hall r hmem
      rw [init_cons r0 rest hr hc hall,
        colsDerivation_eq (r0 :: rest) r0.length
          (fun r hrm => Nat.le_of_eq (hrect r hrm).symm),
        except_bind_ok] at h
      have hcall : all_are_the_same_length (grid_cols (r0 :: rest) r0.length) = true :=
        all_same_of_forall _ (r0 :: rest).length (grid_cols_length_mem (r0 :: rest) r0.length)
      rw [if_pos hcall] at h
      cases hw : r0.length with
      | zero =>
        rw [hw] at h
        rw [show grid_cols (r0 :: rest) 0 = [] from rfl, listIndex_nil,
          except_bind_error] at h
        cases h
      | succ v =>
        rw [hw, grid_cols_succ, listIndex_cons_zero, except_bind_ok] at h
        injection h with h2
        refine ⟨r0, rest, rfl, hrect, by rw [hw]; exact Nat.succ_pos v, ?_⟩
        rw [← h2, hw, grid_cols_succ]
        simp [List.length_map]
  · unfold CSV.init at h
    rw [if_neg hall] at h
    cases h

/-! ### Characterizations of the four methods -/

theorem enum_filterMap_skip0_id (xs : List (List String)) :
    xs.enum.filterMap (fun p => if p.1 = 0 then none else some p.2) = xs.drop 1 := by
  have h := enum_filterMap_skip0 (fun r => r) xs
  simpa using h

theorem enum_filterMap_skip0_drop (xs : List (List String)) :
    xs.enum.filterMap (fun p => if p.1 = 0 then none else some (p.2.drop 1)) =
      (xs.drop 1).map (fun r => r.drop 1) :=
  enum_filterMap_skip0 (fun r => r.drop 1) xs

theorem data_rows_char (c : CSV) :
    c.get_data_per_row_without_titles =
      if c.row_titles then
        (if c.col_titles then (c.rows.drop 1).map (fun r => r.drop 1)
         else c.rows.map (fun r => r.drop 1))
      else
        (if c.col_titles then c.rows.drop 1 else c.rows) := by
  unfold CSV.get_data_per_row_without_titles
  cases hrow : c.row_titles <;> cases hcol : c.col_titles
  · rfl
  · rw [enum_filterMap_skip0_id]
    rfl
  · rfl
  · rw [enum_filterMap_skip0_drop]
    rfl

theorem data_cols_char (c : CSV) :
    c.get_data_per_col_without_titles =
      if c.col_titles then
        (if c.row_titles then (c.cols.drop 1).map (fun col => col.drop 1)
         else c.cols.map (fun col => col.drop 1))
      else
        (if c.row_titles then c.cols.drop 1 else c.cols) := by
  unfold CSV.get_data_per_col_without_titles
  cases hrow : c.row_titles <;> cases hcol : c.col_titles
  · rfl
  · rfl
  · rw [enum_filterMap_skip0_id]
    rfl
  · rw [enum_filterMap_skip0_drop]
    rfl

theorem row_titles_char (c : CSV) (h : ∀ r ∈ c.rows, r ≠ []) :
    c.get_row_titles =
      Except.ok
        (if c.row_titles then
          some (if c.col_titles then (c.rows.drop 1).map (fun r => r.headI)
                else c.rows.map (fun r => r.headI))
         else none) := by
  unfold CSV.get_row_titles
  cases hrow : c.row_titles <;> cases hcol : c.col_titles
  · rfl
  · rfl
  · rw [mapM_listIndex_zero c.rows h]
    rfl
  · rw [enum_filterMap_skip0_id,
      mapM_listIndex_zero _ (fun r hr => h r (List.drop_subset 1 c.rows hr))]
    rfl

theorem col_titles_filter (c : CSV) (h : ∀ col ∈ c.cols, col ≠ []) :
    c.cols.filter (fun col => !col.isEmpty) = c.cols := by
  rw [List.filter_eq_self]
  intro col hcol
  simp [List.isEmpty_iff, h col hcol]

theorem col_titles_char (c : CSV) (h : ∀ col ∈ c.cols, col ≠ []) :
    c.get_col_titles =
      Except.ok
        (if c.col_titles then
          some (if c.row_titles then (c.cols.drop 1).map (fun col => col.headI)
                else (c.cols.filter (fun col => !col.isEmpty)).map (fun col => col.headI))
         else none) := by
  unfold CSV.get_col_titles
  cases hrow : c.row_titles <;> cases hcol : c.col_titles
  · rfl
  · rw [col_titles_filter c h, mapM_listIndex_zero c.cols h]
    rfl
  · rfl
  · rw [enum_filterMap_skip0_id,
      mapM_listIndex_zero _ (fun col hcm => h col (List.drop_subset 1 c.cols hcm))]
    rfl

/-! ### Characterization of `parse_data` -/

theorem cellParse_total (val : String) :
    cellParse val = Except.error PyErr.numberFormatError ∨ ∃ q, cellParse val = Except.ok q := by
  unfold cellParse
  cases pyFloat (pyReplace val) with
  | none => exact Or.inl rfl
  | some q => exact Or.inr ⟨q, rfl⟩

theorem cellParse_ok_getD (val : String) (h : pyFloat (pyReplace val) ≠ none) :
    cellParse val = Except.ok ((pyFloat (pyReplace val)).getD 0) := by
  unfold cellParse
  cases hp : pyFloat (pyReplace val) with
  | none => exact absurd hp h
  | some q => rfl

theorem cellParse_error_iff (val : String) :
    cellParse val = Except.error PyErr.numberFormatError ↔ pyFloat (pyReplace val) = none := by
  unfold cellParse
  cases hp : pyFloat (pyReplace val) with
  | none => simp
  | some q => simp

theorem rowParse_total (row : List String) :
    row.mapM cellParse = Except.error PyErr.numberFormatError ∨
      ∃ out, row.mapM cellParse = Except.ok out := by
  by_cases hex : ∃ val ∈ row, cellParse val = Except.error PyErr.numberFormatError
  · exact Or.inl (mapM_error row cellParse PyErr.numberFormatError
      (fun val _ => cellParse_total val) hex)
  · refine Or.inr (mapM_isOk row cellParse (fun val hv => ?_))
    rcases cellParse_total val with he | hq
    · exact absurd ⟨val, hv, he⟩ hex
    · exact hq

theorem parse_data_ok_of_valid (cells : List (List String))
    (h : ∀ row ∈ cells, ∀ val ∈ row, pyFloat (pyReplace val) ≠ none) :
    CSV.parse_data cells =
      Except.ok (cells.map (fun row =>
        row.map (fun val => (pyFloat (pyReplace val)).getD 0))) := by
  unfold CSV.parse_data
  refine mapM_ok_of_forall _ _ _ (fun row hrow => ?_)
  refine mapM_ok_of_forall _ _ _ (fun val hval => ?_)
  exact cellParse_ok_getD val (h row hrow val hval)

theorem parse_data_error_iff (cells : List (List String)) :
    CSV.parse_data cells = Except.error PyErr.numberFormatError ↔
      ∃ row ∈ cells, ∃ val ∈ row, pyFloat (pyReplace val) = none := by
  constructor
  · intro herr
    by_contra hnone
    push_neg at hnone
    rw [parse_data_ok_of_valid cells hnone] at herr
    cases herr
  · intro ⟨row, hrow, val, hval, hnone⟩
    unfold CSV.parse_data
    refine mapM_error _ _ _ (fun r _ => rowParse_total r) ⟨row, hrow, ?_⟩
    refine mapM_error _ _ _ (fun v _ => cellParse_total v) ⟨val, hval, ?_⟩
    exact (cellParse_error_iff val).mpr hnone

theorem parse_data_ok_inv (cells : List (List String)) (out : List (List ℚ))
    (h : CSV.parse_data cells = Except.ok out) :
    out = cells.map (fun row => row.map (fun val => (pyFloat (pyReplace val)).getD 0)) := by
  by_cases hval : ∀ row ∈ cells, ∀ val ∈ row, pyFloat (pyReplace val) ≠ none
  · rw [parse_data_ok_of_valid cells hval] at h
    injection h with h2
    exact h2.symm
  · push_neg at hval
    obtain ⟨row, hrow, val, hv, hnone⟩ := hval
    rw [(parse_data_error_iff cells).mpr ⟨row, hrow, val, hv, hnone⟩] at h
    cases h

/-! ### Transpose lemmas -/

theorem getD_drop_one (r : List String) (i : Nat) (d : String) :
    (r.drop 1).getD i d = r.getD (i + 1) d := by
  cases r with
  | nil => rfl
  | cons a t => rfl

theorem map_getD_of_drop (l : List (List String)) (i : Nat) :
    (l.map (fun r => r.drop 1)).map (fun r => r.getD i "") =
      l.map (fun r => r.getD (i + 1) "") := by
  rw [List.map_map]
  refine List.map_congr_left (fun r _ => ?_)
  exact getD_drop_one r i ""

theorem drop_one_map {α β : Type} (f : α → β) (l : List α) :
    (l.map f).drop 1 = (l.drop 1).map f := by
  cases l with
  | nil => rfl
  | cons a t => rfl

theorem range_drop_one (w : Nat) :
    (List.range (w + 1)).drop 1 = (List.range w).map (fun i => i + 1) := by
  rw [List.range_succ_eq_map]
  rfl

/-- `transposeG` really is the transpose on non-empty rectangular grids: it
has one row per column of the grid, and entry `(i, j)` of the result is
entry `(j, i)` of the grid. -/
theorem transposeG_is_transpose (g : List (List String)) (w : Nat)
    (hw : ∀ r ∈ g, r.length = w) (hg : g ≠ []) :
    (transposeG g).length = w ∧
      ∀ i j, i < w → j < g.length →
        ((transposeG g).getD i []).getD j "" = (g.getD j []).getD i "" := by
  cases g with
  | nil => exact absurd rfl hg
  | cons r0 rest =>
    have hw0 : r0.length = w := hw r0 (List.mem_cons_self r0 rest)
    constructor
    · simp [transposeG, hw0]
    · intro i j hi hj
      have hrange : (List.range r0.length)[i]? = some i := by
        rw [List.getElem?_range]
        rw [hw0]
        exact hi
      have hcol : (transposeG (r0 :: rest)).getD i [] =
          (r0 :: rest).map (fun row => row.getD i "") := by
        unfold transposeG
        rw [List.getD_eq_getElem?_getD, List.getElem?_map, hrange]
        rfl
      rw [hcol]
      rw [List.getD_eq_getElem?_getD, List.getElem?_map]
      rw [show ((r0 :: rest) : List (List String)).getD j [] =
        (((r0 :: rest) : List (List String))[j]?).getD [] from List.getD_eq_getElem?_getD _ _ _]
      cases hjv : ((r0 :: rest) : List (List String))[j]? with
      | none =>
        rw [List.getElem?_eq_none_iff] at hjv
        exact absurd hj (Nat.not_lt.mpr hjv)
      | some rowj => rfl

theorem derived_cols_ok_inv {rows cls : List (List String)}
    (h : derived_cols rows = Except.ok cls) :
    ∀ c ∈ cls, c.length = rows.length := by
  unfold derived_cols at h
  cases rows with
  | nil =>
    rw [listIndex_nil, except_bind_error] at h
    cases h
  | cons r0 rest =>
    rw [listIndex_cons_zero, except_bind_ok] at h
    unfold colsDerivation at h
    obtain ⟨_, hmem⟩ := mapM_ok_inv h
    intro c hc
    obtain ⟨idx, _, hfx⟩ := hmem c hc
    exact (mapM_ok_inv hfx).1

theorem transposeG_cons (r0 : List String) (rest : List (List String)) :
    transposeG (r0 :: rest) =
      (List.range r0.length).map (fun i => (r0 :: rest).map (fun row => row.getD i "")) := rfl

/-- Claim C3 (amended): for every grid accepted by construction, if at least
one data row remains (or no data column remains), the transpose of
`get_data_per_row_without_titles` equals `get_data_per_col_without_titles`. -/
theorem c3_transpose_round_trip (rows : List (List String)) (hr hc : Bool) (s : CSV)
    (h : CSV.init rows hr hc = Except.ok s)
    (hne : s.get_data_per_row_without_titles ≠ [] ∨
      s.get_data_per_col_without_titles = []) :
    transposeG s.get_data_per_row_without_titles = s.get_data_per_col_without_titles := by
  obtain ⟨r0, rest, hrw, hrect, hpos, hs⟩ := init_ok_inv h
  subst hrw
  subst hs
  obtain ⟨v, hv⟩ : ∃ v, r0.length = v + 1 := ⟨r0.length - 1, by omega⟩
  rw [data_rows_char, data_cols_char] at *
  cases hr <;> cases hc <;>
    simp only [if_true, if_false, Bool.false_eq_true, ite_true, ite_false] at *
  · -- no titles: the transpose of the full grid is the stored column list
    rfl
  · -- only column titles
    have hcolsne : ((grid_cols (r0 :: rest) r0.length).map (fun col => col.drop 1)) ≠ [] := by
      unfold grid_cols
      rw [hv]
      simp [List.range_succ_eq_map]
    have hrest : rest ≠ [] := by
      rcases hne with hne | hne
      · intro hrnil
        rw [hrnil] at hne
        simp at hne
      · exact absurd hne hcolsne
    cases rest with
    | nil => exact absurd rfl hrest
    | cons r1 rest2 =>
      rw [List.drop_succ_cons, List.drop_zero, transposeG_cons,
        hrect r1 (List.mem_cons_of_mem r0 (List.mem_cons_self r1 rest2))]
      unfold grid_cols
      rw [List.map_map]
      refine List.map_congr_left (fun i _ => ?_)
      rfl
  · -- only row titles
    rw [List.map_cons, transposeG_cons, List.length_drop, hv]
    rw [show v + 1 - 1 = v from rfl]
    rw [grid_cols_succ, List.drop_succ_cons, List.drop_zero]
    refine List.map_congr_left (fun i _ => ?_)
    rw [← List.map_cons (fun r => r.drop 1) r0 rest, map_getD_of_drop]
  · -- both titles
    rw [List.drop_succ_cons, List.drop_zero] at *
    cases rest with
    | nil =>
      rcases hne with hne | hne
      · simp at hne
      · rw [hne]
        rfl
    | cons r1 rest2 =>
      rw [List.map_cons, transposeG_cons, List.length_drop,
        hrect r1 (List.mem_cons_of_mem r0 (List.mem_cons_self r1 rest2)), hv]
      rw [show v + 1 - 1 = v from rfl]
      rw [grid_cols_succ, List.drop_succ_cons, List.drop_zero, List.map_map]
      refine List.map_congr_left (fun i _ => ?_)
      rw [← List.map_cons (fun r => r.drop 1) r1 rest2, map_getD_of_drop]
      rfl

/-! ### Claim theorems -/

theorem init_not_malformed_of_all_same (rows : List (List String)) (hr hc : Bool)
    (hall : all_are_the_same_length rows = true) :
    CSV.init rows hr hc ≠ Except.error PyErr.malformedGridError := by
  cases rows with
  | nil =>
    unfold CSV.init
    rw [if_pos hall, listIndex_nil, except_bind_error]
    intro hcon
    injection hcon with h2
    cases h2
  | cons r0 rest =>
    have hrect : ∀ r ∈ r0 :: rest, r.length = r0.length := by
      intro r hrm
      rcases List.mem_cons.mp hrm with heq | hmem
      · rw [heq]
      · exact (all_same_cons_iff r0 rest).mp hall r hmem
    have hcall : all_are_the_same_length (grid_cols (r0 :: rest) r0.length) = true :=
      all_same_of_forall _ (r0 :: rest).length (grid_cols_length_mem (r0 :: rest) r0.length)
    rw [init_cons r0 rest hr hc hall,
      colsDerivation_eq (r0 :: rest) r0.length
        (fun r hrm => Nat.le_of_eq (hrect r hrm).symm),
      except_bind_ok, if_pos hcall]
    cases hw : r0.length with
    | zero =>
      rw [show grid_cols (r0 :: rest) 0 = [] from rfl, listIndex_nil, except_bind_error]
      intro hcon
      injection hcon with h2
      cases h2
    | succ v =>
      rw [grid_cols_succ, listIndex_cons_zero, except_bind_ok]
      intro hcon
      cases hcon

/-- Claim C1: construction fails with `MalformedGridError` exactly when some
row's cell count differs from the first row's, or some derived column's cell
count differs from the first column's (the column-oriented check is
performed but, whenever the column derivation succeeds, every derived
column has one cell per row, so only the row-oriented condition can fire);
in particular the grid `[["a","b"], ["c"]]` raises `MalformedGridError`. -/
theorem c1_malformed_grid :
    (∀ (rows : List (List String)) (hr hc : Bool),
      CSV.init rows hr hc = Except.error PyErr.malformedGridError ↔
        ((∃ r ∈ rows, r.length ≠ rows.headI.length) ∨
         (∃ cls, derived_cols rows = Except.ok cls ∧
           ∃ c ∈ cls, c.length ≠ cls.headI.length)))
    ∧ CSV.init [["a", "b"], ["c"]] true true = Except.error PyErr.malformedGridError := by
  constructor
  · intro rows hr hc
    constructor
    · intro herr
      by_cases hall : all_are_the_same_length rows = true
      · exact absurd herr (init_not_malformed_of_all_same rows hr hc hall)
      · left
        exact (all_same_false_iff rows).mp (Bool.not_eq_true _ ▸ hall)
    · intro hdisj
      rcases hdisj with ⟨r, hrm, hne⟩ | ⟨cls, hcls, c, hcm, hne⟩
      · have hfalse : all_are_the_same_length rows = false :=
          (all_same_false_iff rows).mpr ⟨r, hrm, hne⟩
        unfold CSV.init
        rw [if_neg (by rw [hfalse]; exact Bool.false_ne_true)]
      · have hlen := derived_cols_ok_inv hcls
        cases cls with
        | nil => simp at hcm
        | cons c0 ct =>
          rw [List.headI_cons] at hne
          exact absurd ((hlen c hcm).trans (hlen c0 (List.mem_cons_self c0 ct)).symm) hne
  · rfl

/-- Witness for C1: a grid whose second row is longer than its first is
rejected with `MalformedGridError`. -/
theorem c1_malformed_grid_witness :
    CSV.init [["x"], ["y", "z"]] true false = Except.error PyErr.malformedGridError :=
  (c1_malformed_grid.1 [["x"], ["y", "z"]] true false).mpr
    (Or.inl ⟨["y", "z"], by decide, by decide⟩)

/-- Claim C2: on every grid accepted by construction,
`get_data_per_row_without_titles` and `get_data_per_col_without_titles`
strip titles by the four-way rule on the two flags — both: drop row 0 and
cell 0 of each remaining row (drop column 0 and the first element of each
remaining column); only column titles: drop row 0 (drop the first element
of each column); only row titles: drop cell 0 of each row (drop column 0);
neither: everything unchanged — in row-major and column-major order. -/
theorem c2_data_stripping (rows : List (List String)) (hr hc : Bool) (s : CSV)
    (h : CSV.init rows hr hc = Except.ok s) :
    s.get_data_per_row_without_titles =
      (if hr then
        (if hc then (rows.drop 1).map (fun r => r.drop 1)
         else rows.map (fun r => r.drop 1))
       else (if hc then rows.drop 1 else rows))
    ∧ s.get_data_per_col_without_titles =
      (if hc then
        (if hr then (s.cols.drop 1).map (fun col => col.drop 1)
         else s.cols.map (fun col => col.drop 1))
       else (if hr then s.cols.drop 1 else s.cols)) := by
  obtain ⟨r0, rest, hrw, hrect, hpos, hs⟩ := init_ok_inv h
  subst hrw
  subst hs
  constructor
  · rw [data_rows_char]
  · rw [data_cols_char]

/-- Witness for C2: on the 2×2 grid `[["t","c"],["r","1"]]` with both title
flags set, both data views are the single cell `"1"`. -/
theorem c2_data_stripping_witness :
    CSV.get_data_per_row_without_titles
        ⟨[["t", "c"], ["r", "1"]], 2, [["t", "r"], ["c", "1"]], 2, true, true⟩ = [["1"]]
    ∧ CSV.get_data_per_col_without_titles
        ⟨[["t", "c"], ["r", "1"]], 2, [["t", "r"], ["c", "1"]], 2, true, true⟩ = [["1"]] := by
  have h := c2_data_stripping [["t", "c"], ["r", "1"]] true true
    ⟨[["t", "c"], ["r", "1"]], 2, [["t", "r"], ["c", "1"]], 2, true, true⟩ rfl
  exact ⟨by simpa using h.1, by simpa using h.2⟩

/-- Counterexample to C3 as stated: for the one-row grid
`[["t","c1","c2"]]` with both title flags, the row-major data strip is
empty while the column-major one is two empty columns, so no transpose of
the former (neither the index-reading `transposeG` nor Mathlib's
`List.transpose`) can equal the latter. -/
theorem c3_counterexample :
    CSV.init [["t", "c1", "c2"]] true true =
      Except.ok ⟨[["t", "c1", "c2"]], 3, [["t"], ["c1"], ["c2"]], 1, true, true⟩
    ∧ CSV.get_data_per_row_without_titles
        ⟨[["t", "c1", "c2"]], 3, [["t"], ["c1"], ["c2"]], 1, true, true⟩ = []
    ∧ CSV.get_data_per_col_without_titles
        ⟨[["t", "c1", "c2"]], 3, [["t"], ["c1"], ["c2"]], 1, true, true⟩ = [[], []]
    ∧ transposeG (CSV.get_data_per_row_without_titles
        ⟨[["t", "c1", "c2"]], 3, [["t"], ["c1"], ["c2"]], 1, true, true⟩) ≠
      CSV.get_data_per_col_without_titles
        ⟨[["t", "c1", "c2"]], 3, [["t"], ["c1"], ["c2"]], 1, true, true⟩
    ∧ List.transpose (CSV.get_data_per_row_without_titles
        ⟨[["t", "c1", "c2"]], 3, [["t"], ["c1"], ["c2"]], 1, true, true⟩) ≠
      CSV.get_data_per_col_without_titles
        ⟨[["t", "c1", "c2"]], 3, [["t"], ["c1"], ["c2"]], 1, true, true⟩ := by
  refine ⟨rfl, rfl, rfl, ?_, ?_⟩ <;> decide

/-- Witness for C3 (amended): on the 2×2 grid with both title flags the
round trip holds. -/
theorem c3_transpose_round_trip_witness :
    transposeG (CSV.get_data_per_row_without_titles
        ⟨[["t", "c"], ["r", "1"]], 2, [["t", "r"], ["c", "1"]], 2, true, true⟩) =
      CSV.get_data_per_col_without_titles
        ⟨[["t", "c"], ["r", "1"]], 2, [["t", "r"], ["c", "1"]], 2, true, true⟩ :=
  c3_transpose_round_trip [["t", "c"], ["r", "1"]] true true
    ⟨[["t", "c"], ["r", "1"]], 2, [["t", "r"], ["c", "1"]], 2, true, true⟩ rfl
    (Or.inl (by decide))

/-- Claim C5: on every grid accepted by construction, `get_row_titles`
returns the first cell of every row except row 0 when both flags are set,
the first cell of every row when only `has_row_titles` is set, and no value
when `has_row_titles` is unset. -/
theorem c5_row_titles (rows : List (List String)) (hr hc : Bool) (s : CSV)
    (h : CSV.init rows hr hc = Except.ok s) :
    s.get_row_titles =
      Except.ok
        (if hr then
          some (if hc then (rows.drop 1).map (fun r => r.headI)
                else rows.map (fun r => r.headI))
         else none) := by
  obtain ⟨r0, rest, hrw, hrect, hpos, hs⟩ := init_ok_inv h
  subst hrw
  subst hs
  exact row_titles_char _ (fun r hrm =>
    List.length_pos.mp (by rw [hrect r hrm]; exact hpos))

/-- Witness for C5: on the 2×2 grid with both title flags the row titles
are the first cells of the rows after row 0. -/
theorem c5_row_titles_witness :
    CSV.get_row_titles
        ⟨[["t", "c"], ["r", "1"]], 2, [["t", "r"], ["c", "1"]], 2, true, true⟩ =
      Except.ok (some ["r"]) := by
  have h := c5_row_titles [["t", "c"], ["r", "1"]] true true
    ⟨[["t", "c"], ["r", "1"]], 2, [["t", "r"], ["c", "1"]], 2, true, true⟩ rfl
  simpa using h

/-- Claim C6: on every grid accepted by construction, `get_col_titles`
returns the first cell of every column except column 0 when both flags are
set; the first cell of every column, skipping empty columns, when only
`has_col_titles` is set (and no stored column is ever empty, so the
skipping is vacuous); and no value when `has_col_titles` is unset. -/
theorem c6_col_titles (rows : List (List String)) (hr hc : Bool) (s : CSV)
    (h : CSV.init rows hr hc = Except.ok s) :
    s.get_col_titles =
      Except.ok
        (if hc then
          some (if hr then (s.cols.drop 1).map (fun col => col.headI)
                else (s.cols.filter (fun col => !col.isEmpty)).map (fun col => col.headI))
         else none)
    ∧ s.cols.filter (fun col => !col.isEmpty) = s.cols := by
  obtain ⟨r0, rest, hrw, hrect, hpos, hs⟩ := init_ok_inv h
  subst hrw
  subst hs
  have hcols : ∀ col ∈ grid_cols (r0 :: rest) r0.length, col ≠ [] := by
    intro col hcm
    refine List.length_pos.mp ?_
    rw [grid_cols_length_mem (r0 :: rest) r0.length col hcm]
    exact List.length_pos.mpr (List.cons_ne_nil r0 rest)
  exact ⟨col_titles_char _ hcols, col_titles_filter _ hcols⟩

/-- Witness for C6: on the 2×2 grid with both title flags the column titles
are the first cells of the columns after column 0. -/
theorem c6_col_titles_witness :
    CSV.get_col_titles
        ⟨[["t", "c"], ["r", "1"]], 2, [["t", "r"], ["c", "1"]], 2, true, true⟩ =
      Except.ok (some ["c"]) := by
  have h := c6_col_titles [["t", "c"], ["r", "1"]] true true
    ⟨[["t", "c"], ["r", "1"]], 2, [["t", "r"], ["c", "1"]], 2, true, true⟩ rfl
  simpa using h.1

/-- Claim C4: `parse_data` fails with `NumberFormatError` exactly when some
cell is not a valid number after replacing every `,` by `.`, and on success
returns the cell-wise value of each cell after that substitution; in
particular `"1,5"` and `"1.5"` are the same string after substitution and
both parse to the identical value `1.5`, and `"3,14"` parses to `3.14`. -/
theorem c4_parse_numeric :
    (∀ (cells : List (List String)),
      (CSV.parse_data cells = Except.error PyErr.numberFormatError ↔
        ∃ row ∈ cells, ∃ val ∈ row, pyFloat (pyReplace val) = none)
      ∧ (∀ out, CSV.parse_data cells = Except.ok out →
          out = cells.map (fun row =>
            row.map (fun val => (pyFloat (pyReplace val)).getD 0))))
    ∧ pyReplace "1,5" = "1.5"
    ∧ pyReplace "1.5" = "1.5"
    ∧ CSV.parse_data [["1,5"]] = Except.ok [[(3 : ℚ) / 2]]
    ∧ CSV.parse_data [["1.5"]] = Except.ok [[(3 : ℚ) / 2]]
    ∧ CSV.parse_data [["3,14"]] = Except.ok [[(157 : ℚ) / 50]] := by
  refine ⟨fun cells => ⟨parse_data_error_iff cells,
    fun out hout => parse_data_ok_inv cells out hout⟩, rfl, rfl, ?_, ?_, ?_⟩
  · rw [show CSV.parse_data [["1,5"]] = Except.ok [[(15 : ℚ) / 10 ^ 1]] from rfl]
    norm_num
  · rw [show CSV.parse_data [["1.5"]] = Except.ok [[(15 : ℚ) / 10 ^ 1]] from rfl]
    norm_num
  · rw [show CSV.parse_data [["3,14"]] = Except.ok [[(314 : ℚ) / 10 ^ 2]] from rfl]
    norm_num

/-- Witness for C4: the successful parse of the cell `"2"` is its cell-wise
value. -/
theorem c4_parse_numeric_witness :
    [[(2 : ℚ)]] = [["2"]].map (fun row =>
      row.map (fun val => (pyFloat (pyReplace val)).getD 0)) :=
  (c4_parse_numeric.1 [["2"]]).2 [[(2 : ℚ)]] rfl

/-- Counterexample to C7 as stated: on the title-free 2×2 grid the length
of the absent row titles (taken as the empty sequence) is 0 while there are
2 data rows, and likewise for columns. -/
theorem c7_counterexample :
    CSV.init [["1", "2"], ["3", "4"]] false false =
      Except.ok ⟨[["1", "2"], ["3", "4"]], 2, [["1", "3"], ["2", "4"]], 2, false, false⟩
    ∧ titles_length (CSV.get_row_titles
        ⟨[["1", "2"], ["3", "4"]], 2, [["1", "3"], ["2", "4"]], 2, false, false⟩) = 0
    ∧ (CSV.get_data_per_row_without_titles
        ⟨[["1", "2"], ["3", "4"]], 2, [["1", "3"], ["2", "4"]], 2, false, false⟩).length = 2
    ∧ titles_length (CSV.get_col_titles
        ⟨[["1", "2"], ["3", "4"]], 2, [["1", "3"], ["2", "4"]], 2, false, false⟩) = 0
    ∧ (CSV.get_data_per_col_without_titles
        ⟨[["1", "2"], ["3", "4"]], 2, [["1", "3"], ["2", "4"]], 2, false, false⟩).length = 2
    ∧ (0 : Nat) ≠ 2 := by
  refine ⟨rfl, rfl, rfl, rfl, rfl, ?_⟩
  decide

/-- Claim C7 (amended): on every grid accepted by construction, whenever
`has_row_titles` is set the number of row titles equals the number of data
rows, and whenever `has_col_titles` is set the number of column titles
equals the number of data columns; with a flag unset the titles are absent
and their length (taken as the empty sequence) is 0, which need not match. -/
theorem c7_title_lengths (rows : List (List String)) (hr hc : Bool) (s : CSV)
    (h : CSV.init rows hr hc = Except.ok s) :
    (hr = true →
      titles_length s.get_row_titles = s.get_data_per_row_without_titles.length)
    ∧ (hc = true →
      titles_length s.get_col_titles = s.get_data_per_col_without_titles.length) := by
  obtain ⟨r0, rest, hrw, hrect, hpos, hs⟩ := init_ok_inv h
  subst hrw
  subst hs
  have hrows : ∀ r ∈ (r0 :: rest), r ≠ [] := fun r hrm =>
    List.length_pos.mp (by rw [hrect r hrm]; exact hpos)
  have hcols : ∀ col ∈ grid_cols (r0 :: rest) r0.length, col ≠ [] := by
    intro col hcm
    refine List.length_pos.mp ?_
    rw [grid_cols_length_mem (r0 :: rest) r0.length col hcm]
    exact List.length_pos.mpr (List.cons_ne_nil r0 rest)
  constructor
  · intro hhr
    subst hhr
    rw [row_titles_char _ hrows, data_rows_char]
    cases hc <;> simp [titles_length]
  · intro hhc
    subst hhc
    rw [col_titles_char _ hcols, data_cols_char, col_titles_filter _ hcols]
    cases hr <;> simp [titles_length]

/-- Witness for C7 (amended): on the 2×2 grid with both title flags there
is one row title and one data row, one column title and one data column. -/
theorem c7_title_lengths_witness :
    titles_length (CSV.get_row_titles
        ⟨[["t", "c"], ["r", "1"]], 2, [["t", "r"], ["c", "1"]], 2, true, true⟩) =
      (CSV.get_data_per_row_without_titles
        ⟨[["t", "c"], ["r", "1"]], 2, [["t", "r"], ["c", "1"]], 2, true, true⟩).length
    ∧ titles_length (CSV.get_col_titles
        ⟨[["t", "c"], ["r", "1"]], 2, [["t", "r"], ["c", "1"]], 2, true, true⟩) =
      (CSV.get_data_per_col_without_titles
        ⟨[["t", "c"], ["r", "1"]], 2, [["t", "r"], ["c", "1"]], 2, true, true⟩).length :=
  ⟨(c7_title_lengths [["t", "c"], ["r", "1"]] true true
      ⟨[["t", "c"], ["r", "1"]], 2, [["t", "r"], ["c", "1"]], 2, true, true⟩ rfl).1 rfl,
   (c7_title_lengths [["t", "c"], ["r", "1"]] true true
      ⟨[["t", "c"], ["r", "1"]], 2, [["t", "r"], ["c", "1"]], 2, true, true⟩ rfl).2 rfl⟩

/-- Claim C8: after construction the state is immutable — in state-passing
form, every method call returns the receiver unchanged (so `rows`, `cols`
and the flags are unchanged), and a repeated call on the returned state
yields an equal result. -/
theorem c8_immutable :
    ∀ (c : CSV) (data : List (List String)),
      ((CSV.get_row_titles_call c).2 = c
        ∧ (CSV.get_col_titles_call c).2 = c
        ∧ (CSV.get_data_per_row_call c).2 = c
        ∧ (CSV.get_data_per_col_call c).2 = c
        ∧ (CSV.parse_data_call c data).2 = c
        ∧ (CSV.to_df_call c).2 = c)
      ∧ (((CSV.get_row_titles_call c).2).rows = c.rows
        ∧ ((CSV.get_row_titles_call c).2).cols = c.cols
        ∧ ((CSV.get_row_titles_call c).2).row_titles = c.row_titles
        ∧ ((CSV.get_row_titles_call c).2).col_titles = c.col_titles)
      ∧ (CSV.get_row_titles_call ((CSV.get_row_titles_call c).2)).1 =
          (CSV.get_row_titles_call c).1
      ∧ (CSV.get_col_titles_call ((CSV.get_col_titles_call c).2)).1 =
          (CSV.get_col_titles_call c).1
      ∧ (CSV.get_data_per_row_call ((CSV.get_data_per_row_call c).2)).1 =
          (CSV.get_data_per_row_call c).1
      ∧ (CSV.get_data_per_col_call ((CSV.get_data_per_col_call c).2)).1 =
          (CSV.get_data_per_col_call c).1
      ∧ (CSV.parse_data_call ((CSV.parse_data_call c data).2) data).1 =
          (CSV.parse_data_call c data).1
      ∧ (CSV.to_df_call ((CSV.to_df_call c).2)).1 = (CSV.to_df_call c).1 :=
  fun c data =>
    ⟨⟨rfl, rfl, rfl, rfl, rfl, rfl⟩, ⟨rfl, rfl, rfl, rfl⟩,
      rfl, rfl, rfl, rfl, rfl, rfl⟩

/-- Claim C9: the empty grid passes the rectangularity check (the loop over
an empty iterable returns `True`), so construction does not raise
`MalformedGridError`; it fails instead with an index error when reading
`len(self.rows[0])`. -/
theorem c9_empty_grid :
    all_are_the_same_length ([] : List (List String)) = true
    ∧ ∀ (hr hc : Bool),
      CSV.init [] hr hc = Except.error PyErr.indexError
      ∧ CSV.init [] hr hc ≠ Except.error PyErr.malformedGridError := by
  refine ⟨rfl, fun hr hc => ⟨rfl, ?_⟩⟩
  intro hcon
  rw [show CSV.init [] hr hc = Except.error PyErr.indexError from rfl] at hcon
  injection hcon with h2
  cases h2

/-- Claim C10: `parse_data` replaces every comma in a cell, not only one:
`"1,000"` becomes `"1.000"` and parses to `1.0` (not one thousand), while
`"1,000,5"` becomes `"1.000.5"`, which has two dots and fails. -/
theorem c10_replace_all_commas :
    pyReplace "1,000" = "1.000"
    ∧ CSV.parse_data [["1,000"]] = Except.ok [[(1 : ℚ)]]
    ∧ CSV.parse_data [["1,000"]] ≠ Except.ok [[(1000 : ℚ)]]
    ∧ pyReplace "1,000,5" = "1.000.5"
    ∧ CSV.parse_data [["1,000,5"]] = Except.error PyErr.numberFormatError := by
  have h1 : CSV.parse_data [["1,000"]] = Except.ok [[(1 : ℚ)]] := by
    rw [show CSV.parse_data [["1,000"]] = Except.ok [[(1000 : ℚ) / 10 ^ 3]] from rfl]
    norm_num
  refine ⟨rfl, h1, ?_, rfl, rfl⟩
  rw [h1]
  intro hcon
  injection hcon with h2
  rw [show ([[(1 : ℚ)]] : List (List ℚ)) = [[(1000 : ℚ)]] ↔
    (1 : ℚ) = 1000 from by simp] at h2
  norm_num at h2
